import Mathlib

/-!
Shallow embedding of the rauk-inventory SDK's signing and error-classification
core (TypeScript) into Lean 4.

Modelled source files:
  * `src/utils/sign-request.ts` — `signRequest`
  * `src/utils/errors.ts`       — `parseApiError` and the error classes
  * `src/core/rauk-client.ts`   — constructor, `setConfig`, `request`, and the
    operation facade (`create`, `find`, `findOne`, `update`, `updateMany`,
    `delete`, `deleteOne`, `deleteMany`, `aggregate`, `bulkWrite`)

JSON values are modelled by the inductive `Json` below (numbers as `Int`;
floating-point formatting is never exercised by the properties proved here).
JavaScript `undefined` is modelled as `Option.none` where a property lookup can
miss.  External library primitives (node's `crypto` HMAC, `fetch`) are
parameters of the model; everything written in the repository itself is
translated directly.
-/

namespace Rauk

/-- JSON value tree, the universe of request payloads and response bodies. -/
inductive Json where
  | null : Json
  | bool (b : Bool) : Json
  | num (n : Int) : Json
  | str (s : String) : Json
  | arr (elems : List Json) : Json
  | obj (fields : List (String × Json)) : Json
deriving Repr

/-- JavaScript property access on a value that is not nullish:
`(5).x`, `"s".x`, `[].x` are all `undefined`; on objects it is an
own-property lookup (first binding wins). -/
def Json.getField : Json → String → Option Json
  | .obj fields, key => fields.lookup key
  | _, _ => none

/-- Optional-chaining step `v?.key`: `undefined?.key` and `null?.key` are
`undefined`; otherwise plain property access. -/
def optGet (v : Option Json) (key : String) : Option Json :=
  match v with
  | none => none
  | some .null => none
  | some j => j.getField key

/-- JavaScript truthiness of a JSON value
(`null`, `false`, `0`, `""` are falsy; arrays and objects are truthy). -/
def Json.truthy : Json → Bool
  | .null => false
  | .bool b => b
  | .num n => n != 0
  | .str s => s != ""
  | .arr _ => true
  | .obj _ => true

/-- Truthiness of a possibly-`undefined` value (`undefined` is falsy). -/
def truthyOpt : Option Json → Bool
  | none => false
  | some j => j.truthy

mutual

/-- `String(v)` coercion as performed by the `Error` constructor on its
message argument.  Arrays stringify by joining their elements with `","`,
where `null` elements contribute the empty string. -/
def jsToString : Json → String
  | .null => "null"
  | .bool true => "true"
  | .bool false => "false"
  | .num n => toString n
  | .str s => s
  | .obj _ => "[object Object]"
  | .arr elems => String.intercalate "," (jsArrElems elems)

/-- Element conversion inside `Array.prototype.toString`
(`null` becomes the empty string). -/
def jsArrElems : List Json → List String
  | [] => []
  | .null :: rest => "" :: jsArrElems rest
  | j :: rest => jsToString j :: jsArrElems rest

end

/-- `Array.prototype.join(sep)` over a list of possibly-`undefined`
JavaScript values: `undefined` and `null` elements become `""`, every other
element is `String(·)`-coerced. -/
def joinVals (sep : String) (xs : List (Option Json)) : String :=
  String.intercalate sep
    (xs.map fun v =>
      match v with
      | none => ""
      | some .null => ""
      | some j => jsToString j)

/-- Lower-case hexadecimal digit. -/
def hexDigit (n : Nat) : Char :=
  if n < 10 then Char.ofNat (48 + n) else Char.ofNat (87 + n)

/-- One character of `JSON.stringify` string quoting. -/
def escapeChar (c : Char) : String :=
  if c = '"' then "\\\""
  else if c = '\\' then "\\\\"
  else if c.toNat = 8 then "\\b"
  else if c.toNat = 12 then "\\f"
  else if c = '\n' then "\\n"
  else if c = '\r' then "\\r"
  else if c = '\t' then "\\t"
  else if c.toNat < 32 then
    "\\u00" ++ String.mk [hexDigit (c.toNat / 16), hexDigit (c.toNat % 16)]
  else String.mk [c]

/-- `JSON.stringify` quoting of a string value. -/
def quoteString (s : String) : String :=
  "\"" ++ String.join (s.toList.map escapeChar) ++ "\""

mutual

/-- `JSON.stringify` on the `Json` universe: the deterministic canonical
serialization used both for signing and for the POST body.  Object fields
serialize in their stored order, matching JavaScript's per-object
deterministic key order. -/
def jsonStringify : Json → String
  | .null => "null"
  | .bool true => "true"
  | .bool false => "false"
  | .num n => toString n
  | .str s => quoteString s
  | .arr elems => "[" ++ String.intercalate "," (jsonStringifyElems elems) ++ "]"
  | .obj fields => "\x7b" ++ String.intercalate "," (jsonStringifyFields fields) ++ "\x7d"

/-- Serialization of the elements of a JSON array. -/
def jsonStringifyElems : List Json → List String
  | [] => []
  | j :: rest => jsonStringify j :: jsonStringifyElems rest

/-- Serialization of the fields of a JSON object. -/
def jsonStringifyFields : List (String × Json) → List String
  | [] => []
  | (k, v) :: rest => (quoteString k ++ ":" ++ jsonStringify v) :: jsonStringifyFields rest

end

/-- The base64 alphabet. -/
def b64At (n : Nat) : Char :=
  ("ABCDEFGHIJKLMNOPQRSTUVWXYZabcdefghijklmnopqrstuvwxyz0123456789+/".toList).getD n 'A'

/-- Standard base64 of a byte sequence, with `=` padding
(`Buffer.from(s).toString("base64")`). -/
def base64EncodeBytes : List Nat → String
  | [] => ""
  | [a] => String.mk [b64At (a / 4), b64At (a % 4 * 16), '=', '=']
  | [a, b] => String.mk [b64At (a / 4), b64At (a % 4 * 16 + b / 16), b64At (b % 16 * 4), '=']
  | a :: b :: c :: rest =>
      String.mk [b64At (a / 4), b64At (a % 4 * 16 + b / 16),
                 b64At (b % 16 * 4 + c / 64), b64At (c % 64)] ++
      base64EncodeBytes rest

/-- Base64 of a string's character codes.  The only strings encoded by the
SDK are decimal timestamp strings, which are pure ASCII, where character
codes and UTF-8 bytes coincide. -/
def base64Encode (s : String) : String :=
  base64EncodeBytes (s.toList.map Char.toNat)

/-- The credential triple handed to the signer. -/
structure Credential where
  apiKeyId : String
  apiSecret : String
  apiPublicKey : String
deriving Repr

/-- The string over which the HMAC is computed:
`JSON.stringify(body) + time` (sign-request.ts, `const data = ...`). -/
def signData (body : Json) (time : String) : String :=
  jsonStringify body ++ time

/-- `signRequest` (sign-request.ts).  `hmacSha256Hex key data` models node's
`crypto.createHmac("sha256", key).update(data).digest("hex")`, an external
primitive; `none` models a throw from the primitive, which the source
catches and replaces by a thrown `Error("Failed to generate signature")`
(modelled as `.error`).  `now` is `Date.now()` in milliseconds, captured
once into the decimal string `time`. -/
def signRequest (hmacSha256Hex : String → String → Option String)
    (cred : Credential) (now : Nat) (body : Json) : Except String String :=
  let time := toString now
  let data := signData body time
  match hmacSha256Hex cred.apiSecret data with
  | some hmac =>
      .ok (cred.apiKeyId ++ "." ++ cred.apiPublicKey ++ "." ++ hmac ++ "." ++ base64Encode time)
  | none => .error "Failed to generate signature"

/-- The typed error values of the SDK.  The first four mirror the concrete
subclasses `RaukValidationError`, `RaukAuthenticationError`,
`RaukNetworkError`, `RaukApiError`; `raukError` is a direct instance of the
base class `RaukError` (the unclassified generic SDK error).
`contextOriginalError` models `context.originalError` when set. -/
inductive RaukErr where
  | validationError (message : String) (validationErrors : List Json)
      (statusCode : Nat) (originalError : Option Json)
  | authenticationError (message : String) (statusCode : Nat) (originalError : Option Json)
  | networkError (message : String) (statusCode : Nat)
      (contextOriginalError : Option String) (originalError : Option Json)
  | apiError (message : String) (statusCode : Nat) (originalError : Option Json)
  | raukError (message : String) (statusCode : Nat) (contextOriginalError : Option String)
deriving Repr

/-- Whether a value is the JSON `null`. -/
def Json.isNull : Json → Bool
  | .null => true
  | _ => false

/-- How one element's `constraints` property value is folded into the
result of `flatMap`: an array value is spread (flattened one level); any
other value, including `undefined`, is kept as a single element. -/
def constraintsSpread (e : Json) : List (Option Json) :=
  match e.getField "constraints" with
  | some (.arr cs) => cs.map some
  | some v => [some v]
  | none => [none]

/-- `e.constraints` for one element of the validation-errors array inside
`validationErrors.flatMap((error) => error.constraints)`: property access on
`null` throws a `TypeError` (modelled `.error ()`); otherwise the value is
folded in by `flatMap`. -/
def constraintContribution : Json → Except Unit (List (Option Json))
  | .null => .error ()
  | e => .ok (constraintsSpread e)

/-- `validationErrors.flatMap((error) => error.constraints)`. -/
def flatMapConstraints : List Json → Except Unit (List (Option Json))
  | [] => .ok []
  | e :: rest => do
      let head ← constraintContribution e
      let tail ← flatMapConstraints rest
      .ok (head ++ tail)

/-- `errorBody?.error?.message || dflt`, with the `Error` constructor's
string coercion applied when the message value is truthy but not a string. -/
def messageOr (errorBody : Json) (dflt : String) : String :=
  match optGet (optGet (some errorBody) "error") "message" with
  | some m => if m.truthy then jsToString m else dflt
  | none => dflt

/-- The validation guard
`errorBody?.error?.errors && Array.isArray(errorBody.error.errors)`: it
holds exactly when that field is an array (arrays are always truthy), and
then yields the array's elements. -/
def validationErrorsOf (body : Json) : Option (List Json) :=
  match optGet (optGet (some body) "error") "errors" with
  | some (.arr ves) => some ves
  | _ => none

/-- `parseApiError` (errors.ts).  The result is `.error ()` when the body
makes the classifier itself throw (a `null` element of the errors array hit
by `flatMap`'s property access).  The ISO timestamp recorded by the source
at classification time carries no information about the classification and
is not modelled. -/
def parseApiError (status : Nat) (errorBody : Json) : Except Unit RaukErr :=
  match validationErrorsOf errorBody with
  | some validationErrors => do
      let allMessages ← flatMapConstraints validationErrors
      let message :=
        match optGet (optGet (some errorBody) "error") "message" with
        | some m => if m.truthy then jsToString m else joinVals "; " allMessages
        | none => joinVals "; " allMessages
      .ok (.validationError message validationErrors status (some errorBody))
  | none =>
    if status == 401 || status == 403 then
      .ok (.authenticationError (messageOr errorBody "Authentication failed") status
        (some errorBody))
    else if 500 ≤ status then
      .ok (.networkError (messageOr errorBody "Server error occurred") status none
        (some errorBody))
    else
      .ok (.apiError
        (messageOr errorBody ("API request failed with status " ++ toString status)) status
        (some errorBody))

/-- The mutable state of a `RaukInventoryClient` instance. -/
structure ClientState where
  apiKeyId : String
  apiSecret : String
  apiPublicKey : String
  apiBaseUrl : String
deriving Repr

/-- The default production endpoint. -/
def defaultBaseUrl : String := "https://inventory.rauk.app"

/-- The `RaukInventoryClient` constructor (rauk-client.ts).  `none` for
`apiBaseUrl` models an omitted argument, to which the default parameter
applies.  A thrown `Error` is modelled as `.error message` (the message
strings reproduce the source text, including its off-by-label `"apiKeyId
must be 32 characters long"` for the 24-character check). -/
def mkClient (apiKeyId apiSecret apiPublicKey : String) (apiBaseUrl : Option String) :
    Except String ClientState :=
  if apiKeyId = "" ∨ apiSecret = "" ∨ apiPublicKey = "" then
    .error "apiKeyId, apiSecret and apiPublicKey are required"
  else if apiKeyId.length ≠ 24 then .error "apiKeyId must be 32 characters long"
  else if apiPublicKey.length ≠ 32 then .error "apiPublicKey must be 32 characters long"
  else if apiSecret.length ≠ 64 then .error "apiSecret must be 64 characters long"
  else .ok ⟨apiKeyId, apiSecret, apiPublicKey, apiBaseUrl.getD defaultBaseUrl⟩

/-- `setConfig` (rauk-client.ts): wholesale field replacement with no
validation of the new values; `config.apiBaseUrl || default` treats an
absent or empty base URL as absent. -/
def setConfig (_st : ClientState) (apiKeyId apiSecret apiPublicKey : String)
    (apiBaseUrl : Option String) : ClientState :=
  { apiKeyId := apiKeyId, apiSecret := apiSecret, apiPublicKey := apiPublicKey,
    apiBaseUrl :=
      match apiBaseUrl with
      | some u => if u = "" then defaultBaseUrl else u
      | none => defaultBaseUrl }

/-- Client states reachable by construction followed by any sequence of
`setConfig` calls. -/
inductive Reachable : ClientState → Prop where
  | constructed (k s p : String) (u : Option String) (c : ClientState) :
      mkClient k s p u = .ok c → Reachable c
  | reconfigured (c : ClientState) (k s p : String) (u : Option String) :
      Reachable c → Reachable (setConfig c k s p u)

/-- The credential invariant the specification asserts of every reachable
client state. -/
def CredInvariant (c : ClientState) : Prop :=
  c.apiKeyId.length = 24 ∧ c.apiPublicKey.length = 32 ∧ c.apiSecret.length = 64 ∧
  c.apiKeyId ≠ "" ∧ c.apiPublicKey ≠ "" ∧ c.apiSecret ≠ ""

/-! ### Operation facade: the request arrays built by each public method -/

/-- The canonical shape `[tag, ...args]` with the trailing options element
appended exactly when the caller supplied one (spec §4.2/§4.4). -/
def payloadArray (tag : String) (args : List Json) (options : Option Json) : List Json :=
  match options with
  | some o => Json.str tag :: (args ++ [o])
  | none => Json.str tag :: args

/-- `create(item, options?)` → `["insertOne", item(, options)]`. -/
def createPayload (item : Json) (options : Option Json) : List Json :=
  match options with
  | some o => [.str "insertOne", item, o]
  | none => [.str "insertOne", item]

/-- `find(query, options?)` → `["find", query(, options)]`. -/
def findPayload (query : Json) (options : Option Json) : List Json :=
  match options with
  | some o => [.str "find", query, o]
  | none => [.str "find", query]

/-- `update(query, update, options?)` → `["findOneAndUpdate", ...]`. -/
def updatePayload (query update : Json) (options : Option Json) : List Json :=
  match options with
  | some o => [.str "findOneAndUpdate", query, update, o]
  | none => [.str "findOneAndUpdate", query, update]

/-- `updateMany(query, update, options?)` → `["updateMany", ...]`. -/
def updateManyPayload (query update : Json) (options : Option Json) : List Json :=
  match options with
  | some o => [.str "updateMany", query, update, o]
  | none => [.str "updateMany", query, update]

/-- The soft-delete update body `{deleted: {status: true}}`. -/
def deletedUpdateBody : Json :=
  Json.obj [("deleted", Json.obj [("status", Json.bool true)])]

/-- `delete(query, options?)` →
`["findOneAndUpdate", query, {deleted: {status: true}}(, options)]`. -/
def deletePayload (query : Json) (options : Option Json) : List Json :=
  match options with
  | some o => [.str "findOneAndUpdate", query, deletedUpdateBody, o]
  | none => [.str "findOneAndUpdate", query, deletedUpdateBody]

/-- `deleteOne(query, options?)` → `["deleteOne", query(, options)]`. -/
def deleteOnePayload (query : Json) (options : Option Json) : List Json :=
  match options with
  | some o => [.str "deleteOne", query, o]
  | none => [.str "deleteOne", query]

/-- `deleteMany(query, options?)` → `["deleteMany", query(, options)]`. -/
def deleteManyPayload (query : Json) (options : Option Json) : List Json :=
  match options with
  | some o => [.str "deleteMany", query, o]
  | none => [.str "deleteMany", query]

/-- `aggregate(pipeline, options?)` → `["aggregate", pipeline(, options)]`. -/
def aggregatePayload (pipeline : Json) (options : Option Json) : List Json :=
  match options with
  | some o => [.str "aggregate", pipeline, o]
  | none => [.str "aggregate", pipeline]

/-- `bulkWrite(operations, options?)` → `["bulkWrite", operations(, options)]`. -/
def bulkWritePayload (operations : Json) (options : Option Json) : List Json :=
  match options with
  | some o => [.str "bulkWrite", operations, o]
  | none => [.str "bulkWrite", operations]

/-- JavaScript object-literal construction `{ ...opts, limit: 1 }`: the old
fields are spread in order, then the literal property is written, replacing
an existing binding in place or appended at the end. -/
def setKey : List (String × Json) → String → Json → List (String × Json)
  | [], key, v => [(key, v)]
  | (k, w) :: rest, key, v =>
      if k = key then (k, v) :: rest else (k, w) :: setKey rest key v

/-- The merged options object `{ ...options, limit: 1 }` built by `findOne`
(spreading `undefined` yields the empty object). -/
def findOneMergedOptions (options : Option (List (String × Json))) : List (String × Json) :=
  setKey (options.getD []) "limit" (Json.num 1)

/-- `findOne(query, options?)` delegates to
`find(query, { ...options, limit: 1 })`, so its wire payload always carries
the merged options object. -/
def findOnePayload (query : Json) (options : Option (List (String × Json))) : List Json :=
  findPayload query (some (Json.obj (findOneMergedOptions options)))

/-- `results.length > 0 ? results[0] : null` applied by `findOne` to the
list resolved by `find`; `none` models the `null` result. -/
def findOneResult (results : List Json) : Option Json :=
  match results with
  | [] => none
  | x :: _ => some x

/-! ### Transport: the `request` method -/

/-- Outcome of the external `fetch` call.  `responds` is an HTTP response
whose `.json()` either yields a body or throws (`.error` carries the parse
error's message); `rejectsTypeErrorFetch` is a rejection with a `TypeError`
whose message contains "fetch" (DNS/connection failures);
`rejectsOther` is any other rejection. -/
inductive FetchBehavior where
  | responds (status : Nat) (statusText : String) (body : Except String Json)
  | rejectsTypeErrorFetch (message : String)
  | rejectsOther (message : String)
deriving Repr

/-- A value thrown out of `request`: either a Rauk SDK error or a plain
JavaScript error carrying only a message. -/
inductive Thrown where
  | rauk (e : RaukErr)
  | plain (message : String)
deriving Repr

/-- Message of the `TypeError` thrown when `flatMap` reads `constraints` on
a `null` element inside `parseApiError` (engine-specific wording; V8 text
with its quote characters elided — no proved property depends on it). -/
def classifierTypeErrorMessage : String :=
  "Cannot read properties of null (reading constraints)"

/-- Message of the `TypeError` thrown when `data.data` is read on a `null`
success body (engine-specific wording, as above). -/
def dataAccessTypeErrorMessage : String :=
  "Cannot read properties of null (reading data)"

/-- The synthesized fallback diagnostic body built when `.json()` throws on
a non-ok response. -/
def fallbackErrorBody (status : Nat) (statusText : String) : Json :=
  Json.obj [("success", Json.bool false),
    ("error", Json.obj [("name", Json.str "ParseError"),
      ("message", Json.str ("HTTP " ++ toString status ++ ": " ++ statusText))])]

/-- The part of `request`'s `try` block that runs once `fetch` has produced
an HTTP response, with the surrounding `catch`'s rules applied to the
exceptions that can arise there: on `response.ok` (2xx) the parsed body's
`data` field is returned (`data.data` on a `null` body throws, and the
resulting `TypeError` is wrapped by the catch); a body parse failure on the
2xx path is likewise wrapped; on a non-ok response the body (or the
`ParseError` fallback) is classified by `parseApiError` and the typed
result is thrown unchanged, while a classifier throw is wrapped. -/
def handleResponse (status : Nat) (statusText : String) (body : Except String Json) :
    Except Thrown (Option Json) :=
  if 200 ≤ status ∧ status < 300 then
    match body with
    | .ok .null =>
        .error (.rauk (.raukError "Unexpected error occurred during API request" 0
          (some dataAccessTypeErrorMessage)))
    | .ok data => .ok (data.getField "data")
    | .error parseMsg =>
        .error (.rauk (.raukError "Unexpected error occurred during API request" 0
          (some parseMsg)))
  else
    let errorBody :=
      match body with
      | .ok b => b
      | .error _ => fallbackErrorBody status statusText
    match parseApiError status errorBody with
    | .ok e => .error (.rauk e)
    | .error _ =>
        .error (.rauk (.raukError "Unexpected error occurred during API request" 0
          (some classifierTypeErrorMessage)))

/-- `request` (rauk-client.ts).  `hmacSha256Hex` and `behavior` stand for
the external crypto and fetch collaborators; `now` is `Date.now()`.
The `signRequest` call sits before the `try` block, so a throw during
signing is not caught.  Inside the `try`: the `catch` turns a `TypeError`
whose message mentions "fetch" into a network error with status 0, wraps
every other non-Rauk exception in a base `RaukError` with status 0 and the
original message under `context.originalError`, and re-throws `RaukError`
instances unchanged; HTTP responses are handled by `handleResponse`. -/
def request (cred : Credential) (hmacSha256Hex : String → String → Option String)
    (now : Nat) (behavior : FetchBehavior) (requestArray : Json) :
    Except Thrown (Option Json) :=
  match signRequest hmacSha256Hex cred now requestArray with
  | .error msg => .error (.plain msg)
  | .ok _signedRequest =>
    match behavior with
    | .rejectsTypeErrorFetch message =>
        .error (.rauk (.networkError
          "Network request failed - check your internet connection and API endpoint"
          0 (some message) none))
    | .rejectsOther message =>
        .error (.rauk (.raukError "Unexpected error occurred during API request" 0
          (some message)))
    | .responds status statusText body => handleResponse status statusText body

/-- The POST body sent by `request`: `JSON.stringify(requestArray)`
(the `body:` field of the fetch call in rauk-client.ts). -/
def requestPostBody (requestArray : Json) : String :=
  jsonStringify requestArray

/-- The HTTP status stored on a typed error. -/
def RaukErr.statusCode : RaukErr → Nat
  | .validationError _ _ st _ => st
  | .authenticationError _ st _ => st
  | .networkError _ st _ _ => st
  | .apiError _ st _ => st
  | .raukError _ st _ => st

/-- The raw body attached as `originalError`. -/
def RaukErr.originalError : RaukErr → Option Json
  | .validationError _ _ _ o => o
  | .authenticationError _ _ o => o
  | .networkError _ _ _ o => o
  | .apiError _ _ o => o
  | .raukError _ _ _ => none

/-- Whether an error is one of the four classified kinds (Validation,
Authentication, Network, Generic API) rather than the unclassified base
`RaukError`. -/
def RaukErr.isClassified : RaukErr → Bool
  | .raukError _ _ _ => false
  | _ => true

/-- Bodies on which the classifier cannot throw: either the
`body.error.errors` field is not an array (the validation branch is not
taken), or the array has no `null` entries for `flatMap` to trip on. -/
def classifierSafe (body : Json) : Bool :=
  match validationErrorsOf body with
  | some ves => ves.all (fun e => !e.isNull)
  | none => true

/-- The top-level constraint-message list of a validation-error array, as
the claim describes it — a total function that agrees with the `flatMap`
the code performs whenever the latter does not throw. -/
def constraintMessages : List Json → List (Option Json)
  | [] => []
  | ve :: rest => constraintsSpread ve ++ constraintMessages rest

/-- The classification described by claim C2, written from the claim's four
rules with first match winning.  "`body.error.message` when present" is
read as JavaScript presence-and-truthiness, the reading fixed by the
claim's own "`body.error.message` or default" phrasing in rules 2–4. -/
def classifyClaim (status : Nat) (body : Json) : RaukErr :=
  match validationErrorsOf body with
  | some ves =>
      .validationError
        (match optGet (optGet (some body) "error") "message" with
         | some m => if m.truthy then jsToString m else joinVals "; " (constraintMessages ves)
         | none => joinVals "; " (constraintMessages ves))
        ves status (some body)
  | none =>
    if status == 401 || status == 403 then
      .authenticationError (messageOr body "Authentication failed") status (some body)
    else if 500 ≤ status then
      .networkError (messageOr body "Server error occurred") status none (some body)
    else
      .apiError (messageOr body ("API request failed with status " ++ toString status))
        status (some body)

/-- A well-formed 24-character key id used as a concrete test credential. -/
def goodKeyId : String := "123456789012345678901234"

/-- A well-formed 32-character public key used as a concrete test credential. -/
def goodPublicKey : String := "12345678901234567890123456789012"

/-- A well-formed 64-character secret used as a concrete test credential. -/
def goodSecret : String :=
  "1234567890123456789012345678901234567890123456789012345678901234"

/-! ## Shared lemmas -/

/-- Writing a key into an object's field list makes it the value found by
lookup, whether the key was already bound or is appended. -/
theorem setKey_lookup (l : List (String × Json)) (key : String) (v : Json) :
    (setKey l key v).lookup key = some v := by
  induction l with
  | nil => simp [setKey, List.lookup]
  | cons kw rest ih =>
      obtain ⟨k, w⟩ := kw
      by_cases h : k = key
      · simp [setKey, h, List.lookup]
      · have hbeq : (key == k) = false := by
          simp only [beq_eq_false_iff_ne, ne_eq]
          exact fun he => h he.symm
        simp [setKey, h, List.lookup, hbeq, ih]

/-- On a validation-error list with no `null` entries the code's `flatMap`
does not throw and produces exactly the claim-level constraint messages. -/
theorem flatMapConstraints_of_no_null (ves : List Json)
    (h : ves.all (fun e => !e.isNull) = true) :
    flatMapConstraints ves = .ok (constraintMessages ves) := by
  induction ves with
  | nil => rfl
  | cons ve rest ih =>
      simp only [List.all_cons, Bool.and_eq_true] at h
      obtain ⟨h1, h2⟩ := h
      have hc : constraintContribution ve = .ok (constraintsSpread ve) := by
        cases ve <;> simp_all [constraintContribution, Json.isNull]
      simp only [flatMapConstraints, hc, ih h2, constraintMessages]
      rfl

/-- A successful lookup returns a strictly smaller value than the list. -/
theorem lookup_sizeOf_lt (l : List (String × Json)) (k : String) (v : Json)
    (h : l.lookup k = some v) : sizeOf v < sizeOf l := by
  induction l with
  | nil => simp [List.lookup] at h
  | cons kw rest ih =>
      obtain ⟨k', w⟩ := kw
      by_cases hk : k == k'
      · simp [List.lookup, hk] at h
        subst h
        simp only [List.cons.sizeOf_spec, Prod.mk.sizeOf_spec]
        omega
      · simp [List.lookup, hk] at h
        have := ih h
        simp only [List.cons.sizeOf_spec]
        omega

/-- No JSON value has itself as a field: unwrapping `data` cannot return
the whole envelope. -/
theorem getField_ne_self (body : Json) (k : String) :
    body.getField k ≠ some body := by
  intro h
  cases body with
  | obj fields =>
      have hlt := lookup_sizeOf_lt fields k _ (by simpa [Json.getField] using h)
      simp only [Json.obj.sizeOf_spec] at hlt
      omega
  | _ => simp [Json.getField] at h

/-- When the HMAC primitive throws, `request` surfaces the signer's plain
error unchanged (the signing call is outside the `try` block). -/
theorem request_sign_fail (cred : Credential)
    (hmacFn : String → String → Option String) (now : Nat) (behavior : FetchBehavior)
    (arr : Json) (h : hmacFn cred.apiSecret (signData arr (toString now)) = none) :
    request cred hmacFn now behavior arr =
      .error (.plain "Failed to generate signature") := by
  simp only [request, signRequest]
  rw [h]

/-- When the HMAC primitive succeeds, `request` reduces to the fetch-phase
handling of the chosen behavior. -/
theorem request_sign_ok (cred : Credential)
    (hmacFn : String → String → Option String) (now : Nat) (behavior : FetchBehavior)
    (arr : Json) (hex : String)
    (h : hmacFn cred.apiSecret (signData arr (toString now)) = some hex) :
    request cred hmacFn now behavior arr =
      match behavior with
      | .rejectsTypeErrorFetch m =>
          .error (.rauk (.networkError
            "Network request failed - check your internet connection and API endpoint"
            0 (some m) none))
      | .rejectsOther m =>
          .error (.rauk (.raukError "Unexpected error occurred during API request" 0
            (some m)))
      | .responds st stx b => handleResponse st stx b := by
  simp only [request, signRequest]
  rw [h]

/-- A 2xx response with a parsed non-null body resolves to its `data`
field. -/
theorem handleResponse_2xx_ok (status : Nat) (statusText : String) (b : Json)
    (hok : 200 ≤ status ∧ status < 300) (hb : b.isNull = false) :
    handleResponse status statusText (.ok b) = .ok (b.getField "data") := by
  unfold handleResponse
  rw [if_pos hok]
  cases b with
  | null => simp [Json.isNull] at hb
  | bool x => rfl
  | num x => rfl
  | str x => rfl
  | arr x => rfl
  | obj x => rfl

/-- A 2xx response whose body fails to parse is wrapped as the generic
status-0 SDK error carrying the parse failure's message. -/
theorem handleResponse_2xx_parse_fail (status : Nat) (statusText parseMsg : String)
    (hok : 200 ≤ status ∧ status < 300) :
    handleResponse status statusText (.error parseMsg) =
      .error (.rauk (.raukError "Unexpected error occurred during API request" 0
        (some parseMsg))) := by
  unfold handleResponse
  rw [if_pos hok]

/-- A non-ok response with a parsed body goes through the classifier. -/
theorem handleResponse_non2xx_ok_body (status : Nat) (statusText : String) (b : Json)
    (hcond : ¬(200 ≤ status ∧ status < 300)) :
    handleResponse status statusText (.ok b) =
      (match parseApiError status b with
       | .ok e => .error (.rauk e)
       | .error _ =>
           .error (.rauk (.raukError "Unexpected error occurred during API request" 0
             (some classifierTypeErrorMessage)))) := by
  unfold handleResponse
  rw [if_neg hcond]

/-- A non-ok response whose body fails to parse classifies the synthesized
fallback body. -/
theorem handleResponse_non2xx_parse_fail (status : Nat) (statusText pm : String)
    (hcond : ¬(200 ≤ status ∧ status < 300)) :
    handleResponse status statusText (.error pm) =
      (match parseApiError status (fallbackErrorBody status statusText) with
       | .ok e => .error (.rauk e)
       | .error _ =>
           .error (.rauk (.raukError "Unexpected error occurred during API request" 0
             (some classifierTypeErrorMessage)))) := by
  unfold handleResponse
  rw [if_neg hcond]

/-! ## Claim theorems -/

/-- **C1.** For every credential triple, payload, and clock reading, when
the HMAC primitive succeeds, `signRequest` returns the four-part token
`keyId ++ "." ++ publicKey ++ "." ++ hmacHex ++ "." ++ base64(timestamp)`,
where the timestamp is the millisecond clock rendered as one decimal
string: the same string appears inside the HMAC input (serialized payload
concatenated with it, keyed by the secret) and, base64-encoded, as the
token's suffix. -/
theorem signRequest_four_part_token
    (hmacSha256Hex : String → String → Option String) (cred : Credential)
    (now : Nat) (body : Json) (hex : String)
    (h : hmacSha256Hex cred.apiSecret (jsonStringify body ++ toString now) = some hex) :
    signRequest hmacSha256Hex cred now body =
      .ok (cred.apiKeyId ++ "." ++ cred.apiPublicKey ++ "." ++ hex ++ "." ++
        base64Encode (toString now)) := by
  simp [signRequest, signData, h]

/-- Witness for C1 at a concrete credential, payload and clock value. -/
theorem signRequest_four_part_token_witness :
    signRequest (fun _ _ => some "abc123") ⟨goodKeyId, goodSecret, goodPublicKey⟩
        1700000000000 (Json.arr [Json.str "find"]) =
      .ok (goodKeyId ++ "." ++ goodPublicKey ++ "." ++ "abc123" ++ "." ++
        base64Encode (toString 1700000000000)) :=
  signRequest_four_part_token _ _ _ _ _ rfl

/-- **C3.** The string over which the HMAC is computed is the POST body
plus the timestamp suffix: `signData` (the signer's HMAC input) equals
`requestPostBody` (the bytes `fetch` sends) concatenated with the timestamp
string, because both sides serialize the same request array with the same
deterministic `jsonStringify`; consequently the signature token embeds the
HMAC of exactly the transmitted bytes (plus timestamp). -/
theorem signature_covers_exact_post_body
    (hmacSha256Hex : String → String → Option String) (cred : Credential)
    (now : Nat) (requestArray : Json) (hex : String)
    (h : hmacSha256Hex cred.apiSecret (requestPostBody requestArray ++ toString now) =
      some hex) :
    signData requestArray (toString now) = requestPostBody requestArray ++ toString now ∧
    signRequest hmacSha256Hex cred now requestArray =
      .ok (cred.apiKeyId ++ "." ++ cred.apiPublicKey ++ "." ++ hex ++ "." ++
        base64Encode (toString now)) := by
  refine ⟨rfl, ?_⟩
  have h' : hmacSha256Hex cred.apiSecret (jsonStringify requestArray ++ toString now) =
      some hex := h
  simp [signRequest, signData, h']

/-- Witness for C3 at a concrete request array and clock value. -/
theorem signature_covers_exact_post_body_witness :
    signData (Json.arr [Json.str "find", Json.obj [("sku", Json.str "X")]])
        (toString 1710000000000) =
      requestPostBody (Json.arr [Json.str "find", Json.obj [("sku", Json.str "X")]]) ++
        toString 1710000000000 :=
  (signature_covers_exact_post_body (fun _ _ => some "cafe")
    ⟨goodKeyId, goodSecret, goodPublicKey⟩ 1710000000000
    (Json.arr [Json.str "find", Json.obj [("sku", Json.str "X")]]) "cafe" rfl).1

/-- **C7.** `delete(query, options)` builds the wire array
`["findOneAndUpdate", query, {deleted: {status: true}}(, options)]` — a
soft delete — and its operation tag is never `deleteOne` or `deleteMany`. -/
theorem delete_is_soft_delete (query : Json) (options : Option Json) :
    deletePayload query options =
      payloadArray "findOneAndUpdate" [query, deletedUpdateBody] options ∧
    deletedUpdateBody = Json.obj [("deleted", Json.obj [("status", Json.bool true)])] ∧
    (deletePayload query options).head? ≠ some (Json.str "deleteOne") ∧
    (deletePayload query options).head? ≠ some (Json.str "deleteMany") := by
  refine ⟨?_, rfl, ?_, ?_⟩ <;> cases options <;>
    simp [deletePayload, payloadArray]

/-- **C8.** Every facade operation builds exactly
`[operationTag, ...positional args]` with the trailing options element
appended if and only if the caller supplied one (never a null/undefined
placeholder), and `find({sku:"ITEM-001"})` without options produces the
two-element body `["find", {sku:"ITEM-001"}]`. -/
theorem facade_payload_shapes (a b : Json) (options : Option Json) :
    createPayload a options = payloadArray "insertOne" [a] options ∧
    findPayload a options = payloadArray "find" [a] options ∧
    updatePayload a b options = payloadArray "findOneAndUpdate" [a, b] options ∧
    updateManyPayload a b options = payloadArray "updateMany" [a, b] options ∧
    deletePayload a options = payloadArray "findOneAndUpdate" [a, deletedUpdateBody] options ∧
    deleteOnePayload a options = payloadArray "deleteOne" [a] options ∧
    deleteManyPayload a options = payloadArray "deleteMany" [a] options ∧
    aggregatePayload a options = payloadArray "aggregate" [a] options ∧
    bulkWritePayload a options = payloadArray "bulkWrite" [a] options ∧
    findPayload (Json.obj [("sku", Json.str "ITEM-001")]) none =
      [Json.str "find", Json.obj [("sku", Json.str "ITEM-001")]] := by
  cases options <;>
    simp [createPayload, findPayload, updatePayload, updateManyPayload, deletePayload,
      deleteOnePayload, deleteManyPayload, aggregatePayload, bulkWritePayload, payloadArray]

/-- **C9.** `findOne(query, options)` issues a wire-level `find` whose
merged options force `limit` to 1, overriding any caller-supplied limit,
and returns the first element of the result list, or a null-equivalent
(`none`, not an exception) when the list is empty. -/
theorem findOne_is_find_with_limit_one
    (query : Json) (options : Option (List (String × Json))) :
    findOnePayload query options =
      [Json.str "find", query, Json.obj (findOneMergedOptions options)] ∧
    (findOnePayload query options).head? = some (Json.str "find") ∧
    (findOneMergedOptions options).lookup "limit" = some (Json.num 1) ∧
    findOneMergedOptions (some [("limit", Json.num 999)]) = [("limit", Json.num 1)] ∧
    findOneResult [] = none ∧
    (∀ x xs, findOneResult (x :: xs) = some x) := by
  refine ⟨rfl, rfl, setKey_lookup _ _ _, ?_, rfl, fun x xs => rfl⟩
  simp [findOneMergedOptions, setKey]

/-- **C4 counterexample.** The claim that every state reachable by
construction followed by `setConfig` calls satisfies the credential
invariant is false: constructing with valid credentials and then calling
`setConfig` with `apiKeyId = "x"`, `apiSecret = "y"`, `apiPublicKey = "z"`
reaches a state whose key id has length 1, because `setConfig` performs no
validation. -/
theorem setConfig_reaches_invalid_state :
    ¬ (∀ c, Reachable c → CredInvariant c) := by
  intro hall
  have hreach : Reachable
      (setConfig ⟨goodKeyId, goodSecret, goodPublicKey, defaultBaseUrl⟩ "x" "y" "z" none) :=
    Reachable.reconfigured _ "x" "y" "z" none
      (Reachable.constructed goodKeyId goodSecret goodPublicKey none _ rfl)
  have h2 := (hall _ hreach).1
  have h3 : ("x" : String).length = 24 := h2
  exact absurd h3 (by decide)

/-- **C4 amended.** Construction fails fast exactly when a credential field
violates the `{24,32,64}` length invariant (producing no state), and every
successfully constructed state satisfies the invariant; `setConfig`
replaces the credential wholesale — its result is independent of the prior
state — but performs no validation, so the invariant is *not* preserved
across arbitrary reconfiguration. -/
theorem construction_validates_setConfig_replaces :
    (∀ k s p u c, mkClient k s p u = .ok c →
      CredInvariant c ∧ c = ⟨k, s, p, u.getD defaultBaseUrl⟩) ∧
    (∀ k s p u, (∃ c, mkClient k s p u = .ok c) ↔
      (k.length = 24 ∧ p.length = 32 ∧ s.length = 64)) ∧
    (∀ st st2 k s p u, setConfig st k s p u = setConfig st2 k s p u) := by
  have hok : ∀ k s p : String, ∀ u c, mkClient k s p u = .ok c →
      CredInvariant c ∧ c = ⟨k, s, p, u.getD defaultBaseUrl⟩ := by
    intro k s p u c h
    unfold mkClient at h
    split_ifs at h with h1 h2 h3 h4
    injection h with h5
    push_neg at h1 h2 h3 h4
    subst h5
    exact ⟨⟨h2, h3, h4, h1.1, h1.2.2, h1.2.1⟩, rfl⟩
  refine ⟨hok, ?_, fun st st2 k s p u => rfl⟩
  intro k s p u
  constructor
  · rintro ⟨c, h⟩
    obtain ⟨⟨hk, hp, hs, -⟩, -⟩ := hok k s p u c h
    obtain ⟨-, h5⟩ := hok k s p u c h
    subst h5
    exact ⟨hk, hp, hs⟩
  · rintro ⟨hk, hp, hs⟩
    have hne : ¬(k = "" ∨ s = "" ∨ p = "") := by
      rintro (he | he | he) <;> subst he <;> simp_all
    refine ⟨⟨k, s, p, u.getD defaultBaseUrl⟩, ?_⟩
    simp [mkClient, hne, hk, hp, hs]

/-- Witness for the amended C4: the concrete well-formed credential triple
constructs successfully and the resulting state satisfies the invariant. -/
theorem construction_validates_setConfig_replaces_witness :
    CredInvariant ⟨goodKeyId, goodSecret, goodPublicKey, defaultBaseUrl⟩ :=
  (construction_validates_setConfig_replaces.1 goodKeyId goodSecret goodPublicKey none
    ⟨goodKeyId, goodSecret, goodPublicKey, defaultBaseUrl⟩ rfl).1

/-- **C2.** On every body on which the classifier does not throw (see C10),
`parseApiError` realizes exactly the claimed first-match-wins decision
order `classifyClaim`: an array-valued `body.error.errors` yields a
Validation error regardless of status (message from `body.error.message`
when truthily present, else the constraint messages joined with "; ");
otherwise 401/403 yields Authentication with default "Authentication
failed"; otherwise status ≥ 500 yields Network with default "Server error
occurred"; otherwise a Generic API error defaulting to
"API request failed with status {statusCode}". -/
theorem parseApiError_follows_claimed_order (status : Nat) (body : Json)
    (h : classifierSafe body = true) :
    parseApiError status body = Except.ok (classifyClaim status body) := by
  unfold classifierSafe at h
  unfold parseApiError classifyClaim
  cases hv : validationErrorsOf body with
  | none =>
      simp only [hv]
      split_ifs <;> rfl
  | some ves =>
      rw [hv] at h
      simp only [hv]
      have h' : ves.all (fun e => !e.isNull) = true := h
      rw [flatMapConstraints_of_no_null ves h']
      rfl

/-- Witness for C2 at a concrete 400 response carrying one validation
entry with two constraint messages and no top-level message. -/
theorem parseApiError_follows_claimed_order_witness :
    parseApiError 400
        (Json.obj [("error", Json.obj [("errors", Json.arr [Json.obj
          [("property", Json.str "sku"),
           ("constraints", Json.arr [Json.str "must be a string", Json.str "required"]),
           ("children", Json.arr [])]])])]) =
      Except.ok (classifyClaim 400
        (Json.obj [("error", Json.obj [("errors", Json.arr [Json.obj
          [("property", Json.str "sku"),
           ("constraints", Json.arr [Json.str "must be a string", Json.str "required"]),
           ("children", Json.arr [])]])])])) :=
  parseApiError_follows_claimed_order 400 _ rfl

/-- **C10 counterexample.** The classifier is not total over arbitrary
bodies: at status 400 with body `{error: {errors: [null]}}` the validation
branch's `flatMap` reads `constraints` on `null` and throws, so no typed
error is returned. -/
theorem parseApiError_throws_on_null_entry :
    parseApiError 400 (Json.obj [("error", Json.obj [("errors", Json.arr [Json.null])])]) =
      Except.error () ∧
    ∀ e : RaukErr,
      parseApiError 400 (Json.obj [("error", Json.obj [("errors", Json.arr [Json.null])])]) ≠
        Except.ok e := by
  refine ⟨rfl, fun e he => ?_⟩
  have h' : (Except.error () : Except Unit RaukErr) = Except.ok e := he
  exact Except.noConfusion h'

/-- **C10 amended.** The classifier is total and exception-free on every
status code and every body — including `null`, non-object values, and
objects lacking `error` or `error.message` — except when `body.error.errors`
is an array containing a `null` entry (where the `flatMap` over
`constraints` throws).  On all other bodies it returns one of the four
classified typed errors, carrying the given status code and the given body
as `originalError`. -/
theorem parseApiError_total_when_no_null_entries (status : Nat) (body : Json)
    (h : classifierSafe body = true) :
    ∃ e : RaukErr, parseApiError status body = Except.ok e ∧
      e.isClassified = true ∧ e.statusCode = status ∧ e.originalError = some body := by
  unfold classifierSafe at h
  unfold parseApiError
  cases hv : validationErrorsOf body with
  | none =>
      simp only [hv]
      split_ifs <;> exact ⟨_, rfl, rfl, rfl, rfl⟩
  | some ves =>
      rw [hv] at h
      simp only [hv]
      have h' : ves.all (fun e => !e.isNull) = true := h
      rw [flatMapConstraints_of_no_null ves h']
      exact ⟨_, rfl, rfl, rfl, rfl⟩

/-- Witness for the amended C10: a teapot status with a bare numeric body
is classified (as a Generic API error) without throwing. -/
theorem parseApiError_total_when_no_null_entries_witness :
    ∃ e : RaukErr, parseApiError 418 (Json.num 3) = Except.ok e ∧
      e.isClassified = true ∧ e.statusCode = 418 ∧ e.originalError = some (Json.num 3) :=
  parseApiError_total_when_no_null_entries 418 (Json.num 3) rfl

/-- **C5 counterexample.** A throw from the hashing primitive during
signature computation is *not* wrapped as a Generic SDK error: the
`signRequest` call sits before the `try` block of `request`, so the plain
`Error("Failed to generate signature")` escapes the facade call untyped. -/
theorem signing_throw_escapes_unwrapped :
    request ⟨goodKeyId, goodSecret, goodPublicKey⟩ (fun _ _ => none) 1700000000000
        (.responds 200 "OK" (.ok (Json.obj [("data", Json.null)])))
        (Json.arr [Json.str "find"]) =
      .error (.plain "Failed to generate signature") ∧
    (∀ e : RaukErr, Thrown.plain "Failed to generate signature" ≠ Thrown.rauk e) :=
  ⟨rfl, fun _ h => Thrown.noConfusion h⟩

/-- **C5 amended.** A throw from the hashing primitive escapes `request`
as a plain `Error` with the constant message "Failed to generate
signature" — untyped, but incapable of containing the 64-character secret
or hmac state.  Once signing has succeeded, every exception raised during
the HTTP phase surfaces as a Rauk error: non-fetch rejections are wrapped
as a Generic SDK error with status sentinel 0 carrying the original
message in context, and errors already typed by the classifier propagate
unchanged without re-wrapping. -/
theorem request_error_discipline
    (cred : Credential) (hmacSha256Hex : String → String → Option String)
    (now : Nat) (behavior : FetchBehavior) (requestArray : Json) :
    (hmacSha256Hex cred.apiSecret (signData requestArray (toString now)) = none →
      request cred hmacSha256Hex now behavior requestArray =
        .error (.plain "Failed to generate signature") ∧
      (cred.apiSecret.length = 64 →
        ¬ cred.apiSecret.toList <:+: "Failed to generate signature".toList)) ∧
    (∀ hex, hmacSha256Hex cred.apiSecret (signData requestArray (toString now)) = some hex →
      (∀ t, request cred hmacSha256Hex now behavior requestArray = .error t →
        ∃ e, t = .rauk e) ∧
      (∀ msg, behavior = .rejectsOther msg →
        request cred hmacSha256Hex now behavior requestArray =
          .error (.rauk (.raukError "Unexpected error occurred during API request" 0
            (some msg)))) ∧
      (∀ st stxt b e, behavior = .responds st stxt (.ok b) → ¬(200 ≤ st ∧ st < 300) →
        parseApiError st b = .ok e →
        request cred hmacSha256Hex now behavior requestArray = .error (.rauk e))) := by
  constructor
  · intro hnone
    refine ⟨request_sign_fail cred hmacSha256Hex now behavior requestArray hnone, ?_⟩
    intro hlen hinf
    have hle := hinf.length_le
    have h1 : cred.apiSecret.toList.length = 64 := hlen
    have h2 : ("Failed to generate signature").toList.length = 28 := by decide
    omega
  · intro hex hhex
    refine ⟨?_, ?_, ?_⟩
    · intro t ht
      rw [request_sign_ok cred hmacSha256Hex now behavior requestArray hex hhex] at ht
      cases behavior with
      | rejectsTypeErrorFetch m =>
          have ht2 : (Except.error (Thrown.rauk (RaukErr.networkError
                "Network request failed - check your internet connection and API endpoint"
                0 (some m) none)) : Except Thrown (Option Json)) = .error t := ht
          exact ⟨_, by injection ht2 with h2; exact h2.symm⟩
      | rejectsOther m =>
          have ht2 : (Except.error (Thrown.rauk
                (RaukErr.raukError "Unexpected error occurred during API request" 0
                  (some m))) : Except Thrown (Option Json)) = .error t := ht
          exact ⟨_, by injection ht2 with h2; exact h2.symm⟩
      | responds st stx b =>
          have ht' : handleResponse st stx b = .error t := ht
          by_cases hcond : 200 ≤ st ∧ st < 300
          · cases b with
            | ok data =>
                cases hn : data.isNull
                · rw [handleResponse_2xx_ok st stx data hcond hn] at ht'
                  exact Except.noConfusion ht'
                · have hdn : data = Json.null := by
                    cases data <;> simp_all [Json.isNull]
                  subst hdn
                  unfold handleResponse at ht'
                  rw [if_pos hcond] at ht'
                  have ht2 : (Except.error (Thrown.rauk
                        (RaukErr.raukError "Unexpected error occurred during API request" 0
                          (some dataAccessTypeErrorMessage))) :
                      Except Thrown (Option Json)) = .error t := ht'
                  exact ⟨_, by injection ht2 with h2; exact h2.symm⟩
            | error pm =>
                rw [handleResponse_2xx_parse_fail st stx pm hcond] at ht'
                exact ⟨_, by injection ht' with h2; exact h2.symm⟩
          · cases b with
            | ok bb =>
                rw [handleResponse_non2xx_ok_body st stx bb hcond] at ht'
                cases hp : parseApiError st bb with
                | ok e =>
                    rw [hp] at ht'
                    have ht2 : (Except.error (Thrown.rauk e) :
                        Except Thrown (Option Json)) = .error t := ht'
                    exact ⟨_, by injection ht2 with h2; exact h2.symm⟩
                | error u =>
                    rw [hp] at ht'
                    have ht2 : (Except.error (Thrown.rauk
                          (RaukErr.raukError "Unexpected error occurred during API request" 0
                            (some classifierTypeErrorMessage))) :
                        Except Thrown (Option Json)) = .error t := ht'
                    exact ⟨_, by injection ht2 with h2; exact h2.symm⟩
            | error pm =>
                rw [handleResponse_non2xx_parse_fail st stx pm hcond] at ht'
                cases hp : parseApiError st (fallbackErrorBody st stx) with
                | ok e =>
                    rw [hp] at ht'
                    have ht2 : (Except.error (Thrown.rauk e) :
                        Except Thrown (Option Json)) = .error t := ht'
                    exact ⟨_, by injection ht2 with h2; exact h2.symm⟩
                | error u =>
                    rw [hp] at ht'
                    have ht2 : (Except.error (Thrown.rauk
                          (RaukErr.raukError "Unexpected error occurred during API request" 0
                            (some classifierTypeErrorMessage))) :
                        Except Thrown (Option Json)) = .error t := ht'
                    exact ⟨_, by injection ht2 with h2; exact h2.symm⟩
    · intro msg hb
      subst hb
      rw [request_sign_ok cred hmacSha256Hex now _ requestArray hex hhex]
    · intro st stxt b e hb hcond hp
      subst hb
      rw [request_sign_ok cred hmacSha256Hex now _ requestArray hex hhex]
      show handleResponse st stxt (.ok b) = .error (.rauk e)
      rw [handleResponse_non2xx_ok_body st stxt b hcond, hp]

/-- Witness for the amended C5: with a failing HMAC primitive the concrete
call surfaces the plain signing error. -/
theorem request_error_discipline_witness :
    request ⟨goodKeyId, goodSecret, goodPublicKey⟩ (fun _ _ => none) 42
        (.rejectsOther "boom") Json.null =
      .error (.plain "Failed to generate signature") :=
  ((request_error_discipline ⟨goodKeyId, goodSecret, goodPublicKey⟩ (fun _ _ => none) 42
    (.rejectsOther "boom") Json.null).1 rfl).1

/-- **C6.** On a 2xx response whose body parses to JSON (any non-null
value, on which reading `.data` cannot throw), `request` resolves with
exactly the body's `data` field — never the full envelope, since no value
is its own `data` field; when JSON parsing of a 2xx body fails, the caller
gets the unclassified base-`RaukError` wrap (status sentinel 0), not one
of the four classified typed errors of the taxonomy. -/
theorem request_success_unwraps_data_field
    (cred : Credential) (hmacSha256Hex : String → String → Option String)
    (now : Nat) (requestArray : Json) (status : Nat) (statusText : String) (hex : String)
    (hhex : hmacSha256Hex cred.apiSecret (signData requestArray (toString now)) = some hex)
    (hok : 200 ≤ status ∧ status < 300) :
    (∀ body : Json, body.isNull = false →
      request cred hmacSha256Hex now (.responds status statusText (.ok body)) requestArray =
        .ok (body.getField "data")) ∧
    (∀ body : Json, body.getField "data" ≠ some body) ∧
    (∀ parseMsg : String,
      request cred hmacSha256Hex now (.responds status statusText (.error parseMsg))
          requestArray =
        .error (.rauk (.raukError "Unexpected error occurred during API request" 0
          (some parseMsg))) ∧
      RaukErr.isClassified
        (.raukError "Unexpected error occurred during API request" 0 (some parseMsg)) =
        false) := by
  refine ⟨?_, fun body => getField_ne_self body "data", ?_⟩
  · intro body hb
    rw [request_sign_ok cred hmacSha256Hex now _ requestArray hex hhex]
    exact handleResponse_2xx_ok status statusText body hok hb
  · intro parseMsg
    refine ⟨?_, rfl⟩
    rw [request_sign_ok cred hmacSha256Hex now _ requestArray hex hhex]
    exact handleResponse_2xx_parse_fail status statusText parseMsg hok

/-- Witness for C6: a concrete 204 response with body `{data: 7}` resolves
to `7`. -/
theorem request_success_unwraps_data_field_witness :
    request ⟨goodKeyId, goodSecret, goodPublicKey⟩ (fun _ _ => some "aa") 99
        (.responds 204 "No Content" (.ok (Json.obj [("data", Json.num 7)])))
        (Json.arr [Json.str "find"]) =
      .ok (some (Json.num 7)) :=
  (request_success_unwraps_data_field ⟨goodKeyId, goodSecret, goodPublicKey⟩
    (fun _ _ => some "aa") 99 (Json.arr [Json.str "find"]) 204 "No Content" "aa" rfl
    (by omega)).1 (Json.obj [("data", Json.num 7)]) rfl

end Rauk
